import Mathlib

/-!
Verification of `scripts/ssh_socks5_proxy.py`: a SOCKS5 CONNECT client that
tunnels stdin/stdout through a local proxy.  The script has two parts:
`socks5_connect` (the handshake) and `forward_data` (the bidirectional
forwarding loop), plus CLI glue in `__main__`.  We embed each part as an
executable Lean function over explicit environments (the bytes the proxy
returns, the readiness schedule of the select loop, the chunks each stream
delivers) and prove the specified properties.

Bytes are `Nat` (values < 256 in all real runs); strings are lists of
Unicode code points, so Python's `len(s)` is `List.length` and
`s.encode()` is `utf8Encode`.
-/

/-- Fixed proxy configuration from the script (module constant PROXY_PORT). -/
def PROXY_PORT : Nat := 10828

/-- Fixed proxy configuration from the script (module constant PROXY_HOST,
as the code points of the string "127.0.0.1"). -/
def PROXY_HOST : List Nat := [49, 50, 55, 46, 48, 46, 48, 46, 49]

/-- UTF-8 encoding of a single code point, as Python's `str.encode()`
produces for each character. -/
def utf8EncodeChar (c : Nat) : List Nat :=
  if c < 128 then [c]
  else if c < 2048 then [192 + c / 64, 128 + c % 64]
  else if c < 65536 then [224 + c / 4096, 128 + (c / 64) % 64, 128 + c % 64]
  else [240 + c / 262144, 128 + (c / 4096) % 64, 128 + (c / 64) % 64, 128 + c % 64]

/-- `host.encode()`: UTF-8 bytes of a list of code points. -/
def utf8Encode (host : List Nat) : List Nat :=
  (host.map utf8EncodeChar).flatten

/-- The environment a single run of `socks5_connect` sees: whether the TCP
connect to the proxy succeeds, the bytes `sock.recv(2)` returns for the
greeting reply, and the bytes `sock.recv(10)` returns for the CONNECT reply. -/
structure ProxyEnv where
  reachable : Bool
  greet : List Nat
  conn : List Nat
deriving DecidableEq

/-- Outcome of `socks5_connect`: either the socket is returned (`ok`) or a
Python exception is raised.  `unreachable` is the socket error from
`sock.connect`; `authFailed` the explicit raise on line 40; `valueError`
is `bytes([len(target_host)])` with a length above 255; `structError` is
`struct.pack(">H", target_port)` with a port above 65535; `connectFailed`
the explicit raise on line 56; `indexError` is `response[1]` inside that
raise's f-string when the CONNECT reply has fewer than 2 bytes. -/
inductive SocksResult where
  | ok
  | unreachable
  | authFailed
  | valueError
  | structError
  | indexError
  | connectFailed (status : Nat)
deriving DecidableEq

/-- Embedding of `socks5_connect(target_host, target_port)` (lines 28-58).
Returns the full byte sequence sent to the proxy together with the outcome.
The greeting `\x05\x01\x00` is sent first; the greeting reply passes iff
`response[1:2] == b"\x00"`; the CONNECT request is
`\x05\x01\x00\x03 + bytes([len(host)]) + host.encode() + pack(">H", port)`,
whose construction raises before anything is sent when the code-point count
exceeds 255 or the port exceeds 65535; the CONNECT reply is accepted iff
`response[1:2] == b"\x00"`. -/
def socks5_connect (host : List Nat) (port : Nat) (env : ProxyEnv) :
    List Nat × SocksResult :=
  if env.reachable then
    if (env.greet.drop 1).take 1 = [0] then
      if host.length ≤ 255 then
        if port ≤ 65535 then
          ([5, 1, 0] ++ [5, 1, 0, 3] ++ [host.length] ++ utf8Encode host ++
              [port / 256, port % 256],
           match (env.conn.drop 1).take 1 with
           | [0] => SocksResult.ok
           | [b] => SocksResult.connectFailed b
           | _ => SocksResult.indexError)
        else ([5, 1, 0], SocksResult.structError)
      else ([5, 1, 0], SocksResult.valueError)
    else ([5, 1, 0], SocksResult.authFailed)
  else ([], SocksResult.unreachable)

/-- State of the forwarding loop: the chunks still to be delivered by
`sock.recv` and by `os.read` on stdin (an empty chunk, or exhaustion of the
list, is end-of-stream), the bytes written so far to stdout and to the
socket, whether the `while` loop is still running, and whether an I/O
exception was raised. -/
structure FwdState where
  sockIn : List (List Nat)
  stdinIn : List (List Nat)
  stdout : List Nat
  sockOut : List Nat
  running : Bool
  errored : Bool
deriving DecidableEq

/-- One `select.select` outcome: which of the two sources are readable, or
an I/O exception in one of the calls of the iteration. -/
inductive FwdEv where
  | ready (sockReadable stdinReadable : Bool)
  | ioError
deriving DecidableEq

/-- The `if sock in readable` branch (lines 69-73): `recv` a chunk; a
zero-length chunk breaks the loop, otherwise the chunk is written to
stdout. -/
def stepSock (sockReadable : Bool) (s : FwdState) : FwdState :=
  if sockReadable then
    match s.sockIn with
    | [] => { s with running := false }
    | c :: rest =>
      if c = [] then { s with sockIn := rest, running := false }
      else { s with sockIn := rest, stdout := s.stdout ++ c }
  else s

/-- The `if sys.stdin in readable` branch (lines 76-80): read a chunk from
stdin; a zero-length chunk breaks the loop, otherwise the chunk is sent to
the socket. -/
def stepStdin (stdinReadable : Bool) (s : FwdState) : FwdState :=
  if stdinReadable then
    match s.stdinIn with
    | [] => { s with running := false }
    | d :: rest =>
      if d = [] then { s with stdinIn := rest, running := false }
      else { s with stdinIn := rest, sockOut := s.sockOut ++ d }
  else s

/-- One iteration of the `while True` loop of `forward_data`: if a break
already happened nothing runs; an I/O exception stops the loop with the
error flag set; otherwise the socket branch runs first and, when it did not
break, the stdin branch runs. -/
def forward_step (s : FwdState) (e : FwdEv) : FwdState :=
  if s.running then
    match e with
    | FwdEv.ioError => { s with running := false, errored := true }
    | FwdEv.ready sr si =>
      let s1 := stepSock sr s
      if s1.running then stepStdin si s1 else s1
  else s

/-- Embedding of `forward_data(sock)` (lines 61-83), run over a finite
schedule of select outcomes.  A final state with `running = true` means the
loop is still blocked in `select`. -/
def forward_data (sched : List FwdEv) (s : FwdState) : FwdState :=
  sched.foldl forward_step s

/-- The whole external environment of one process invocation. -/
structure Env where
  proxy : ProxyEnv
  sched : List FwdEv
  sockData : List (List Nat)
  stdinData : List (List Nat)
deriving DecidableEq

/-- Initial forwarding state built from the environment: nothing written
yet, loop running, no error. -/
def initFwd (env : Env) : FwdState :=
  ⟨env.sockData, env.stdinData, [], [], true, false⟩

/-- `int(s)` of Python for the strings the script passes it, restricted to
plain decimal digit strings (code points of 0-9); any other string raises
`ValueError` (`none`). -/
def python_int (s : List Nat) : Option Nat :=
  if s ≠ [] ∧ ∀ c ∈ s, 48 ≤ c ∧ c ≤ 57 then
    some (s.foldl (fun a c => a * 10 + (c - 48)) 0)
  else none

/-- Messages printed to stderr by the script. -/
inductive Msg where
  | usage
  | traceback
  | proxyError
  | fwdError
deriving DecidableEq

/-- Observable result of one process invocation: the exit code (`none` when
the process never exits because the loop stays blocked in `select`), the
bytes written to stdout, the stderr messages, and the bytes sent to the
proxy. -/
structure MainRes where
  exitCode : Option Nat
  stdout : List Nat
  stderr : List Msg
  sent : List Nat
deriving DecidableEq

/-- Embedding of the `__main__` block (lines 86-99): `sys.argv` must have
exactly 3 entries or a usage message is printed and the exit code is 1;
`int(sys.argv[2])` raising is an uncaught traceback with exit code 1; a
`socks5_connect` exception is caught, reported on stderr, exit code 1; a
`forward_data` exception is reported by `forward_data` and again by
`__main__`, exit code 1; otherwise falling off the end exits 0. -/
def main_run (argv : List (List Nat)) (env : Env) : MainRes :=
  match argv with
  | [_, host, portStr] =>
    match python_int portStr with
    | none => ⟨some 1, [], [Msg.traceback], []⟩
    | some port =>
      match socks5_connect host port env.proxy with
      | (sent, SocksResult.ok) =>
        let f := forward_data env.sched (initFwd env)
        if f.errored then ⟨some 1, f.stdout, [Msg.fwdError, Msg.proxyError], sent ++ f.sockOut⟩
        else if f.running then ⟨none, f.stdout, [], sent ++ f.sockOut⟩
        else ⟨some 0, f.stdout, [], sent ++ f.sockOut⟩
      | (sent, _) => ⟨some 1, [], [Msg.proxyError], sent⟩
  | _ => ⟨some 1, [], [Msg.usage], []⟩

example : socks5_connect [104, 105] 22 ⟨true, [5, 0], [5, 0, 0, 0, 0, 0, 0, 0, 0, 0]⟩ =
    ([5, 1, 0, 5, 1, 0, 3, 2, 104, 105, 0, 22], SocksResult.ok) := by decide

example : socks5_connect [233] 22 ⟨true, [5, 0], [5, 0]⟩ =
    ([5, 1, 0, 5, 1, 0, 3, 1, 195, 169, 0, 22], SocksResult.ok) := by decide

example : socks5_connect [104] 22 ⟨true, [5, 255], [5, 0]⟩ =
    ([5, 1, 0], SocksResult.authFailed) := by decide

example : socks5_connect [104] 70000 ⟨true, [5, 0], [5, 0]⟩ =
    ([5, 1, 0], SocksResult.structError) := by decide

example : python_int [54, 53, 53, 51, 54] = some 65536 := by decide

example : forward_data [FwdEv.ready true true, FwdEv.ready true false]
    ⟨[[1, 2], [3]], [[7]], [], [], true, false⟩ =
    ⟨[], [], [1, 2, 3], [7], true, false⟩ := by decide

lemma utf8EncodeChar_ascii (c : Nat) (h : c < 128) : utf8EncodeChar c = [c] := by
  simp [utf8EncodeChar, h]

lemma utf8Encode_ascii (host : List Nat) (h : ∀ c ∈ host, c < 128) :
    utf8Encode host = host := by
  induction host with
  | nil => rfl
  | cons a as ih =>
    have ha : a < 128 := h a (List.mem_cons_self a as)
    have hs : ∀ c ∈ as, c < 128 := fun c hc => h c (List.mem_cons_of_mem a hc)
    simp only [utf8Encode, List.map_cons, List.flatten_cons] at ih ⊢
    rw [utf8EncodeChar_ascii a ha, ih hs]
    rfl

lemma greet_slice_ne (l : List Nat) (h : l.length < 2 ∨ l.getD 1 0 ≠ 0) :
    (l.drop 1).take 1 ≠ [0] := by
  match l with
  | [] => simp
  | [a] => simp
  | a :: b :: t =>
    rcases h with h | h
    · simp at h
      omega
    · simpa [List.getD] using h

/-- C1 (counterexample): the claim's byte sequence uses a length byte equal
to the UTF-8 byte length of the host.  For the one-character host U+00E9
(UTF-8 bytes 195, 169, so UTF-8 byte length 2, at most 255) with port 22
and an accepting proxy, the code sends length byte 1 (the code-point
count), so the bytes actually sent differ from the claimed sequence. -/
theorem socks5_length_byte_counterexample :
    (socks5_connect [233] 22 ⟨true, [5, 0], [5, 0]⟩).1 =
      [5, 1, 0] ++ [5, 1, 0, 3] ++ [1] ++ [195, 169] ++ [0, 22] ∧
    (utf8Encode [233]).length = 2 ∧
    (socks5_connect [233] 22 ⟨true, [5, 0], [5, 0]⟩).1 ≠
      [5, 1, 0] ++ [5, 1, 0, 3] ++ [(utf8Encode [233]).length] ++ utf8Encode [233] ++
        [0, 22] := by
  refine ⟨by decide, by decide, by decide⟩

/-- C1 (amended): for every target host all of whose code points are ASCII
(so its code-point count equals its UTF-8 byte length) with byte length at
most 255 and every port in 0..65535, when the proxy accepts the greeting,
`socks5_connect` sends exactly the method-negotiation bytes 5 1 0 followed
by the CONNECT request 5 1 0 3, one length byte equal to the host's byte
length, the raw host bytes with no terminator, and the port big-endian in
2 bytes — nothing else.  (For a non-ASCII host the length byte is the
code-point count, not the UTF-8 byte length.) -/
theorem socks5_request_bytes_ascii (host : List Nat) (port : Nat) (env : ProxyEnv)
    (hascii : ∀ c ∈ host, c < 128) (hlen : (utf8Encode host).length ≤ 255)
    (hport : port ≤ 65535) (hreach : env.reachable = true)
    (hgreet : (env.greet.drop 1).take 1 = [0]) :
    (socks5_connect host port env).1 =
      [5, 1, 0] ++ [5, 1, 0, 3] ++ [(utf8Encode host).length] ++ utf8Encode host ++
        [port / 256, port % 256] := by
  have he : utf8Encode host = host := utf8Encode_ascii host hascii
  rw [he] at hlen ⊢
  unfold socks5_connect
  rw [hreach, if_pos rfl, if_pos hgreet, if_pos hlen, if_pos hport, he]

/-- C1 (witness): the amended theorem at host "hi" (bytes 104 105), port
443, with an accepting proxy. -/
theorem socks5_request_bytes_ascii_witness :
    (socks5_connect [104, 105] 443 ⟨true, [5, 0], [5, 0]⟩).1 =
      [5, 1, 0] ++ [5, 1, 0, 3] ++ [(utf8Encode [104, 105]).length] ++
        utf8Encode [104, 105] ++ [443 / 256, 443 % 256] :=
  socks5_request_bytes_ascii [104, 105] 443 ⟨true, [5, 0], [5, 0]⟩
    (by decide) (by decide) (by decide) rfl rfl

/-- C2 (code bug): the CONNECT reply is read with a bare `recv(10)` and the
length of the reply is never checked, so a short reply of only 2 bytes
whose status byte is 0 — here `b"\x05\x00"` — is treated as success and the
socket is returned, where the claim (and the spec's fixed-size-read rule)
requires a failure. -/
theorem socks5_short_connect_reply_accepted :
    socks5_connect [104, 111, 115, 116] 22 ⟨true, [5, 0], [5, 0]⟩ =
      ([5, 1, 0, 5, 1, 0, 3, 4, 104, 111, 115, 116, 0, 22], SocksResult.ok) := by
  decide

/-- C5: when the greeting reply has fewer than 2 bytes or its byte 1 is not
0, `socks5_connect` raises the authentication-failed error and the only
bytes ever sent to the proxy are the 3 greeting bytes — no CONNECT request
follows. -/
theorem socks5_auth_reject (host : List Nat) (port : Nat) (env : ProxyEnv)
    (hreach : env.reachable = true)
    (h : env.greet.length < 2 ∨ env.greet.getD 1 0 ≠ 0) :
    socks5_connect host port env = ([5, 1, 0], SocksResult.authFailed) := by
  unfold socks5_connect
  rw [hreach, if_pos rfl, if_neg (greet_slice_ne env.greet h)]

/-- C5 (witness): a greeting reply selecting method 255 (no acceptable
method) is rejected with nothing but the greeting sent. -/
theorem socks5_auth_reject_witness :
    socks5_connect [104] 22 ⟨true, [5, 255], [5, 0]⟩ =
      ([5, 1, 0], SocksResult.authFailed) :=
  socks5_auth_reject [104] 22 ⟨true, [5, 255], [5, 0]⟩ rfl (Or.inr (by decide))

/-- C8: for every host whose UTF-8 byte length exceeds 255, either the
CONNECT request is never sent (only the 3 greeting bytes, or nothing at
all, ever reach the proxy, and the call fails) or the request that is sent
carries the host bytes in full — the host is never silently truncated.
In particular a 256-byte ASCII host makes `bytes([len(host)])` raise
before `sendall`, so the call fails with only the greeting sent. -/
theorem socks5_long_host_never_truncated (host : List Nat) (port : Nat)
    (env : ProxyEnv) (h : 255 < (utf8Encode host).length) :
    (((socks5_connect host port env).1 = [] ∨
        (socks5_connect host port env).1 = [5, 1, 0]) ∧
      (socks5_connect host port env).2 ≠ SocksResult.ok) ∨
    ∃ u v, (socks5_connect host port env).1 = u ++ (utf8Encode host ++ v) := by
  unfold socks5_connect
  by_cases hr : env.reachable
  · rw [hr, if_pos rfl]
    by_cases hg : (env.greet.drop 1).take 1 = [0]
    · rw [if_pos hg]
      by_cases hh : host.length ≤ 255
      · rw [if_pos hh]
        by_cases hp : port ≤ 65535
        · rw [if_pos hp]
          right
          exact ⟨[5, 1, 0] ++ [5, 1, 0, 3] ++ [host.length], [port / 256, port % 256],
            by simp⟩
        · rw [if_neg hp]
          exact Or.inl ⟨Or.inr rfl, by simp⟩
      · rw [if_neg hh]
        exact Or.inl ⟨Or.inr rfl, by simp⟩
    · rw [if_neg hg]
      exact Or.inl ⟨Or.inr rfl, by simp⟩
  · simp only [Bool.not_eq_true] at hr
    rw [hr]
    exact Or.inl ⟨Or.inl rfl, by simp⟩

set_option maxRecDepth 4000 in
/-- C8 (witness): a host of 256 ASCII bytes (256 copies of the letter a)
against an accepting proxy: the call fails, only the greeting is sent. -/
theorem socks5_long_host_never_truncated_witness :
    (((socks5_connect (List.replicate 256 97) 22 ⟨true, [5, 0], [5, 0]⟩).1 = [] ∨
        (socks5_connect (List.replicate 256 97) 22 ⟨true, [5, 0], [5, 0]⟩).1 =
          [5, 1, 0]) ∧
      (socks5_connect (List.replicate 256 97) 22 ⟨true, [5, 0], [5, 0]⟩).2 ≠
        SocksResult.ok) ∨
    ∃ u v, (socks5_connect (List.replicate 256 97) 22 ⟨true, [5, 0], [5, 0]⟩).1 =
      u ++ (utf8Encode (List.replicate 256 97) ++ v) :=
  socks5_long_host_never_truncated (List.replicate 256 97) 22 ⟨true, [5, 0], [5, 0]⟩
    (by decide)

/-- `f` is reachable from `s` by consuming some prefix of each input stream
and appending exactly the concatenation of the consumed chunks, in order,
to the corresponding output. -/
def Consumes (s f : FwdState) : Prop :=
  ∃ k m, f.sockIn = s.sockIn.drop k ∧
    f.stdout = s.stdout ++ (s.sockIn.take k).flatten ∧
    f.stdinIn = s.stdinIn.drop m ∧
    f.sockOut = s.sockOut ++ (s.stdinIn.take m).flatten

lemma consumes_refl (s : FwdState) : Consumes s s :=
  ⟨0, 0, by simp, by simp, by simp, by simp⟩

lemma consumes_trans {s t u : FwdState} (h1 : Consumes s t) (h2 : Consumes t u) :
    Consumes s u := by
  obtain ⟨k1, m1, a1, a2, a3, a4⟩ := h1
  obtain ⟨k2, m2, b1, b2, b3, b4⟩ := h2
  refine ⟨k1 + k2, m1 + m2, ?_, ?_, ?_, ?_⟩
  · rw [b1, a1, List.drop_drop, Nat.add_comm]
  · rw [b2, a2, a1, List.take_add, List.flatten_append, List.append_assoc]
  · rw [b3, a3, List.drop_drop, Nat.add_comm]
  · rw [b4, a4, a3, List.take_add, List.flatten_append, List.append_assoc]


lemma stepSock_consumes (sr : Bool) (s : FwdState) : Consumes s (stepSock sr s) := by
  by_cases hsr : sr = true
  · rcases hs : s.sockIn with _ | ⟨c, rest⟩
    · refine ⟨0, 0, ?_, ?_, ?_, ?_⟩ <;> simp [stepSock, hsr, hs]
    · by_cases hc : c = []
      · refine ⟨1, 0, ?_, ?_, ?_, ?_⟩ <;> simp [stepSock, hsr, hs, hc]
      · refine ⟨1, 0, ?_, ?_, ?_, ?_⟩ <;> simp [stepSock, hsr, hs, hc]
  · refine ⟨0, 0, ?_, ?_, ?_, ?_⟩ <;> simp [stepSock, hsr]

lemma stepStdin_consumes (si : Bool) (s : FwdState) : Consumes s (stepStdin si s) := by
  by_cases hsi : si = true
  · rcases hs : s.stdinIn with _ | ⟨d, rest⟩
    · refine ⟨0, 0, ?_, ?_, ?_, ?_⟩ <;> simp [stepStdin, hsi, hs]
    · by_cases hd : d = []
      · refine ⟨0, 1, ?_, ?_, ?_, ?_⟩ <;> simp [stepStdin, hsi, hs, hd]
      · refine ⟨0, 1, ?_, ?_, ?_, ?_⟩ <;> simp [stepStdin, hsi, hs, hd]
  · refine ⟨0, 0, ?_, ?_, ?_, ?_⟩ <;> simp [stepStdin, hsi]

lemma forward_step_consumes (s : FwdState) (e : FwdEv) :
    Consumes s (forward_step s e) := by
  by_cases hr : s.running = true
  · cases e with
    | ioError => refine ⟨0, 0, ?_, ?_, ?_, ?_⟩ <;> simp [forward_step, hr]
    | ready sr si =>
      have hstep : forward_step s (FwdEv.ready sr si) =
          if (stepSock sr s).running then stepStdin si (stepSock sr s)
          else stepSock sr s := by
        simp [forward_step, hr]
      rw [hstep]
      by_cases h1 : (stepSock sr s).running = true
      · rw [if_pos h1]
        exact consumes_trans (stepSock_consumes sr s)
          (stepStdin_consumes si (stepSock sr s))
      · rw [if_neg h1]
        exact stepSock_consumes sr s
  · have h0 : forward_step s e = s := by simp [forward_step, hr]
    rw [h0]
    exact consumes_refl s

lemma forward_data_consumes (sched : List FwdEv) (s : FwdState) :
    Consumes s (forward_data sched s) := by
  induction sched generalizing s with
  | nil => exact consumes_refl s
  | cons e es ih =>
    exact consumes_trans (forward_step_consumes s e) (ih (forward_step s e))

/-- C3: for every select schedule and every starting state, the forwarding
loop consumes some prefix of the tunnel's chunk stream and some prefix of
the stdin chunk stream, and appends to stdout exactly the concatenation, in
arrival order, of the tunnel chunks it consumed, and to the tunnel exactly
the concatenation, in arrival order, of the stdin chunks it consumed:
within each direction no byte is dropped, duplicated, or reordered,
whatever the interleaving of the two directions. -/
theorem forward_data_fidelity (sched : List FwdEv) (s : FwdState) :
    ∃ k m, (forward_data sched s).sockIn = s.sockIn.drop k ∧
      (forward_data sched s).stdout = s.stdout ++ (s.sockIn.take k).flatten ∧
      (forward_data sched s).stdinIn = s.stdinIn.drop m ∧
      (forward_data sched s).sockOut = s.sockOut ++ (s.stdinIn.take m).flatten :=
  forward_data_consumes sched s

lemma forward_step_halted (s : FwdState) (e : FwdEv) (h : s.running = false) :
    forward_step s e = s := by
  simp [forward_step, h]

lemma forward_data_halted (sched : List FwdEv) (s : FwdState)
    (h : s.running = false) : forward_data sched s = s := by
  induction sched with
  | nil => rfl
  | cons e es ih =>
    show forward_data es (forward_step s e) = s
    rw [forward_step_halted s e h, ih]

/-- C4: the first zero-length read ends the whole operation, on whichever
side it occurs and however the two sides interleave.  If the loop is
running and the iteration observes a zero-length read — on the tunnel when
the socket is readable, or on stdin (readable and at end-of-stream)
whether the tunnel is not readable or is readable and still delivers a
data chunk in the same iteration — then the loop breaks in that iteration
and the rest of the schedule is never acted on: the final state is exactly
the state at the break, with `running = false`.  The three case equations
show the iteration performs no read or write after the zero-length read:
a tunnel end-of-stream leaves stdout, the tunnel output and stdin
untouched even when stdin was readable; a stdin end-of-stream writes
nothing to the tunnel and reads nothing further, at most letting the
tunnel chunk delivered earlier in the same iteration reach stdout. -/
theorem forward_first_eof_terminates (s : FwdState) (sr si : Bool)
    (sched : List FwdEv) (hrun : s.running = true)
    (heof : (sr = true ∧ s.sockIn.head? = some []) ∨
      (si = true ∧ s.stdinIn.head? = some [] ∧
        (sr = false ∨ ∃ c, s.sockIn.head? = some c ∧ c ≠ []))) :
    forward_data (FwdEv.ready sr si :: sched) s =
      forward_step s (FwdEv.ready sr si) ∧
    (forward_step s (FwdEv.ready sr si)).running = false ∧
    (sr = true → s.sockIn.head? = some [] →
      forward_step s (FwdEv.ready sr si) =
        { s with sockIn := s.sockIn.tail, running := false }) ∧
    (sr = false → si = true → s.stdinIn.head? = some [] →
      forward_step s (FwdEv.ready sr si) =
        { s with stdinIn := s.stdinIn.tail, running := false }) ∧
    (∀ c, sr = true → si = true → s.sockIn.head? = some c → c ≠ [] →
      s.stdinIn.head? = some [] →
      forward_step s (FwdEv.ready sr si) =
        { s with sockIn := s.sockIn.tail, stdinIn := s.stdinIn.tail, stdout := s.stdout ++ c, running := false }) := by
  have h3 : sr = true → s.sockIn.head? = some [] →
      forward_step s (FwdEv.ready sr si) =
        { s with sockIn := s.sockIn.tail, running := false } := by
    intro hsr hhead
    subst hsr
    rcases hs : s.sockIn with _ | ⟨c, rest⟩
    · rw [hs] at hhead
      simp at hhead
    · rw [hs] at hhead
      simp only [List.head?_cons, Option.some.injEq] at hhead
      simp [forward_step, stepSock, hrun, hs, hhead]
  have h4 : sr = false → si = true → s.stdinIn.head? = some [] →
      forward_step s (FwdEv.ready sr si) =
        { s with stdinIn := s.stdinIn.tail, running := false } := by
    intro hsr hsi hhead
    subst hsr
    subst hsi
    rcases hs : s.stdinIn with _ | ⟨d, rest⟩
    · rw [hs] at hhead
      simp at hhead
    · rw [hs] at hhead
      simp only [List.head?_cons, Option.some.injEq] at hhead
      simp [forward_step, stepSock, stepStdin, hrun, hs, hhead]
  have h5 : ∀ c, sr = true → si = true → s.sockIn.head? = some c → c ≠ [] →
      s.stdinIn.head? = some [] →
      forward_step s (FwdEv.ready sr si) =
        { s with sockIn := s.sockIn.tail, stdinIn := s.stdinIn.tail, stdout := s.stdout ++ c, running := false } := by
    intro c hsr hsi hheadc hcne hheadd
    subst hsr
    subst hsi
    rcases hs : s.sockIn with _ | ⟨c2, restc⟩
    · rw [hs] at hheadc
      simp at hheadc
    · rw [hs] at hheadc
      simp only [List.head?_cons, Option.some.injEq] at hheadc
      subst hheadc
      rcases hd : s.stdinIn with _ | ⟨d, restd⟩
      · rw [hd] at hheadd
        simp at hheadd
      · rw [hd] at hheadd
        simp only [List.head?_cons, Option.some.injEq] at hheadd
        have hstep1 : stepSock true s =
            { s with sockIn := restc, stdout := s.stdout ++ c2 } := by
          simp [stepSock, hs, hcne]
        have hstep2 : stepStdin true { s with sockIn := restc, stdout := s.stdout ++ c2 } =
            { s with sockIn := restc, stdout := s.stdout ++ c2, stdinIn := restd, running := false } := by
          simp [stepStdin, hd, hheadd]
        rw [hrun] at hstep1 hstep2
        simp [forward_step, hrun, hstep1, hs, hd]
        simp [stepStdin, hheadd]
  have hhalt : (forward_step s (FwdEv.ready sr si)).running = false := by
    rcases heof with ⟨hsr, hhead⟩ | ⟨hsi, hheadd, hcase⟩
    · rw [h3 hsr hhead]
    · rcases hcase with hsr | ⟨c, hheadc, hcne⟩
      · rw [h4 hsr hsi hheadd]
      · by_cases hsr : sr = true
        · rw [h5 c hsr hsi hheadc hcne hheadd]
        · simp only [Bool.not_eq_true] at hsr
          rw [h4 hsr hsi hheadd]
  refine ⟨?_, hhalt, h3, h4, h5⟩
  show forward_data sched (forward_step s (FwdEv.ready sr si)) =
    forward_step s (FwdEv.ready sr si)
  exact forward_data_halted sched _ hhalt

/-- C4 (witness): stdin reaches end-of-stream in an iteration where the
tunnel is also readable and delivers the byte 7: the chunk already read
from the tunnel reaches stdout, the stdin end-of-stream breaks the loop,
and the run ends in exactly that state. -/
theorem forward_first_eof_terminates_witness :
    (forward_data [FwdEv.ready true true] ⟨[[7]], [[]], [], [], true, false⟩).running = false ∧
    forward_data [FwdEv.ready true true] ⟨[[7]], [[]], [], [], true, false⟩ =
      ⟨[], [], [7], [], false, false⟩ := by
  have h := forward_first_eof_terminates ⟨[[7]], [[]], [], [], true, false⟩ true true []
    rfl (Or.inr ⟨rfl, rfl, Or.inr ⟨[7], rfl, by decide⟩⟩)
  have h5 := h.2.2.2.2 [7] rfl rfl rfl (by decide) rfl
  refine ⟨?_, ?_⟩
  · rw [h.1]
    exact h.2.1
  · rw [h.1, h5]
    decide

/-- C7: in an iteration of the loop where both the tunnel and stdin are
readable and both deliver a nonempty chunk (neither is at end-of-stream),
both directions are serviced in that very iteration: the tunnel chunk is
written to stdout and the stdin chunk is sent to the tunnel — neither
direction starves the other. -/
theorem forward_both_serviced (s : FwdState) (c d : List Nat)
    (cs ds : List (List Nat)) (hrun : s.running = true)
    (hc : s.sockIn = c :: cs) (hd : s.stdinIn = d :: ds)
    (hcne : c ≠ []) (hdne : d ≠ []) :
    forward_step s (FwdEv.ready true true) =
      { s with sockIn := cs, stdinIn := ds, stdout := s.stdout ++ c, sockOut := s.sockOut ++ d } := by
  have h1 : stepSock true s = { s with sockIn := cs, stdout := s.stdout ++ c } := by
    simp [stepSock, hc, hcne]
  have h2 : stepStdin true { s with sockIn := cs, stdout := s.stdout ++ c } =
      { s with sockIn := cs, stdinIn := ds, stdout := s.stdout ++ c, sockOut := s.sockOut ++ d } := by
    simp [stepStdin, hd, hdne]
  rw [hrun] at h1 h2
  simp [forward_step, hrun, h1, h2]

/-- C7 (witness): both sides readable with one pending byte each: a single
iteration forwards both bytes. -/
theorem forward_both_serviced_witness :
    forward_step ⟨[[1]], [[2]], [], [], true, false⟩ (FwdEv.ready true true) =
      ⟨[], [], [1], [2], true, false⟩ := by
  exact forward_both_serviced ⟨[[1]], [[2]], [], [], true, false⟩ [1] [2] [] []
    rfl rfl rfl (by decide) (by decide)

/-- C6: whenever the handshake fails — the proxy is unreachable, the
greeting is rejected, the request cannot be built, or the CONNECT reply is
bad or short — the process writes no bytes at all to standard output, the
diagnostic message goes to the error stream alone, and the exit code is 1. -/
theorem handshake_failure_silent (a host portStr : List Nat) (env : Env)
    (port : Nat) (hp : python_int portStr = some port)
    (hfail : (socks5_connect host port env.proxy).2 ≠ SocksResult.ok) :
    (main_run [a, host, portStr] env).stdout = [] ∧
    (main_run [a, host, portStr] env).stderr = [Msg.proxyError] ∧
    (main_run [a, host, portStr] env).exitCode = some 1 := by
  have hm : main_run [a, host, portStr] env =
      ⟨some 1, [], [Msg.proxyError], (socks5_connect host port env.proxy).1⟩ := by
    rcases hsc : socks5_connect host port env.proxy with ⟨sent, res⟩
    rw [hsc] at hfail
    cases res <;> simp_all [main_run, hp, hsc]
  rw [hm]
  exact ⟨rfl, rfl, rfl⟩

/-- C6 (witness): proxy rejecting the no-auth greeting: stdout stays empty,
one message on stderr, exit code 1. -/
theorem handshake_failure_silent_witness :
    (main_run [[115], [104], [50, 50]] ⟨⟨true, [5, 255], [5, 0]⟩, [], [], []⟩).stdout = [] ∧
    (main_run [[115], [104], [50, 50]] ⟨⟨true, [5, 255], [5, 0]⟩, [], [], []⟩).stderr =
      [Msg.proxyError] ∧
    (main_run [[115], [104], [50, 50]] ⟨⟨true, [5, 255], [5, 0]⟩, [], [], []⟩).exitCode =
      some 1 :=
  handshake_failure_silent [115] [104] [50, 50] ⟨⟨true, [5, 255], [5, 0]⟩, [], [], []⟩
    22 (by decide) (by decide)

/-- C9: the only possible outcomes of an invocation are exit code 0, exit
code 1, and not exiting at all (the loop blocked in `select` forever); the
exit code is 0 exactly when the arguments parse, the handshake succeeds and
the forwarding loop ends without an I/O error (clean end-of-stream), and
the process fails to exit exactly when the handshake succeeds and the loop
neither errors nor sees an end-of-stream; every failure exits with code 1. -/
theorem main_exit_codes (argv : List (List Nat)) (env : Env) :
    ((main_run argv env).exitCode = none ∨ (main_run argv env).exitCode = some 0 ∨
      (main_run argv env).exitCode = some 1) ∧
    ((main_run argv env).exitCode = some 0 ↔
      ∃ a host portStr port, argv = [a, host, portStr] ∧
        python_int portStr = some port ∧
        (socks5_connect host port env.proxy).2 = SocksResult.ok ∧
        (forward_data env.sched (initFwd env)).errored = false ∧
        (forward_data env.sched (initFwd env)).running = false) ∧
    ((main_run argv env).exitCode = none ↔
      ∃ a host portStr port, argv = [a, host, portStr] ∧
        python_int portStr = some port ∧
        (socks5_connect host port env.proxy).2 = SocksResult.ok ∧
        (forward_data env.sched (initFwd env)).errored = false ∧
        (forward_data env.sched (initFwd env)).running = true) := by
  rcases argv with _ | ⟨a, _ | ⟨host, _ | ⟨portStr, _ | ⟨x, rest⟩⟩⟩⟩
  · simp [main_run]
  · simp [main_run]
  · simp [main_run]
  · rcases hpi : python_int portStr with _ | port
    · simp [main_run, hpi]
    · rcases hsc : socks5_connect host port env.proxy with ⟨sent, res⟩
      cases res with
      | ok =>
        by_cases herr : (forward_data env.sched (initFwd env)).errored = true
        · simp [main_run, hpi, hsc, herr]
        · by_cases hrn : (forward_data env.sched (initFwd env)).running = true
          · simp_all [main_run, hpi, hsc]
            exact ⟨a, host, portStr, ⟨rfl, rfl, rfl⟩, port, hpi, by rw [hsc]⟩
          · simp_all [main_run, hpi, hsc]
            exact ⟨a, host, portStr, ⟨rfl, rfl, rfl⟩, port, hpi, by rw [hsc]⟩
      | unreachable => simp [main_run, hpi, hsc]
      | authFailed => simp [main_run, hpi, hsc]
      | valueError => simp [main_run, hpi, hsc]
      | structError => simp [main_run, hpi, hsc]
      | indexError => simp [main_run, hpi, hsc]
      | connectFailed status => simp [main_run, hpi, hsc]
  · simp [main_run]

/-- C10: a port above 65535 passes argument handling (`int` parses it), the
proxy is connected and the 3 greeting bytes are sent, and the bad port is
only caught when `struct.pack` builds the CONNECT request: the handshake
fails with the range error after the greeting was already on the wire, and
the process exits with code 1 and an error message. -/
theorem port_overflow_detected_late (a host portStr : List Nat) (env : Env)
    (port : Nat) (hp : python_int portStr = some port) (hport : 65535 < port)
    (hreach : env.proxy.reachable = true)
    (hgreet : (env.proxy.greet.drop 1).take 1 = [0])
    (hhost : host.length ≤ 255) :
    socks5_connect host port env.proxy = ([5, 1, 0], SocksResult.structError) ∧
    main_run [a, host, portStr] env = ⟨some 1, [], [Msg.proxyError], [5, 1, 0]⟩ := by
  have h1 : socks5_connect host port env.proxy =
      ([5, 1, 0], SocksResult.structError) := by
    unfold socks5_connect
    rw [hreach, if_pos rfl, if_pos hgreet, if_pos hhost, if_neg (by omega)]
  exact ⟨h1, by simp [main_run, hp, h1]⟩

/-- C10 (witness): port 65536 ("65536" on the command line) against an
accepting proxy: the greeting goes out, then the range error aborts the
handshake and the process exits 1. -/
theorem port_overflow_detected_late_witness :
    socks5_connect [104] 65536 ⟨true, [5, 0], [5, 0]⟩ =
      ([5, 1, 0], SocksResult.structError) ∧
    main_run [[115], [104], [54, 53, 53, 51, 54]] ⟨⟨true, [5, 0], [5, 0]⟩, [], [], []⟩ =
      ⟨some 1, [], [Msg.proxyError], [5, 1, 0]⟩ :=
  port_overflow_detected_late [115] [104] [54, 53, 53, 51, 54]
    ⟨⟨true, [5, 0], [5, 0]⟩, [], [], []⟩ 65536 (by decide) (by decide) rfl rfl
    (by decide)
